import Mathlib

/-!
Verification development for the glGA-SDK ECS core
(`glGA/ECS/ECSSManager.py` and `glGA/ECS/Component.py`).

The Python objects are embedded shallowly: object identity becomes a
numeric id (`EntityId`, `CompId`), the object heaps become finite maps
(functions from ids to records), and each registry method becomes a pure
state-passing function.  Methods that the source could make fail return
`Except`; the Python code under study raises no exception of its own, so
the error constructors correspond to the failure kinds named by the
design documentation (`DuplicateRegistration`, `UnknownEntity`,
`InvalidHierarchy`, `OutOfRange`) plus the `TypeError` that Python itself
raises for a misused builtin.

The `Entity` and `System` modules are not part of the excerpt; the few
operations of theirs that the excerpt calls (`Entity.add`,
`Entity.getParent`, the System visit methods) are modelled from the
design document and are marked `Modelled from the spec:` in their doc
comments.  Everything else is translated directly from the Python source.
-/

/-- Identity of an Entity object (Python object identity, `is`). -/
abbrev EntityId := Nat

/-- Identity of a Component object (Python object identity, `is`). -/
abbrev CompId := Nat

/-- The concrete Component classes of `Component.py`:
`BasicTransform`, `Camera`, `RenderMesh`.  They are unrelated leaf
classes, so `isinstance(el, type(component))` is equality of kinds. -/
inductive CKind
  | basicTransform
  | camera
  | renderMesh
deriving DecidableEq, Repr

/-- A reference to a scene-graph node: either an Entity or a Component. -/
inductive SNode
  | ent (e : EntityId)
  | comp (c : CompId)
deriving DecidableEq, Repr

/-- The failure kinds of the design documentation together with Python's
own `TypeError`.  The excerpt itself never raises the first four. -/
inductive ECSError
  | duplicateRegistration
  | unknownEntity
  | invalidHierarchy
  | outOfRange
  | typeError
deriving DecidableEq, Repr

/-- Heap record of an `Entity` object.
`parent` uses the source's self-reference sentinel (`self._parent = self`
in `Component.__init__`, and the spec's "a node with no explicit parent
refers to itself"): an unattached entity `e` has `parent = SNode.ent e`.
`children` is the ordered child list filled by `add`. -/
structure EntityData where
  name : String
  parent : SNode
  children : List SNode

/-- Heap record of a `Component` object (the part the registry claims
touch): its concrete class and its parent back-reference, again with the
self sentinel. -/
structure CompData where
  kind : CKind
  parent : SNode

/-- The instance fields set by `ECSSManager.__init__` (lines 42-52):
`_systems`, `_components`, `_entities`, `_cameras`,
`_entities_components` (an insertion-ordered dict, embedded as an
association list), `_next_entity_id`, `_root`. -/
structure Manager where
  systems : List Nat
  components : List CompId
  entities : List EntityId
  cameras : List CompId
  entitiesComponents : List (EntityId × List (Option CompId))
  nextEntityId : Nat
  root : Option EntityId
deriving DecidableEq, Repr

/-- The state `ECSSManager.__init__` establishes: every collection empty. -/
def initManager : Manager :=
  { systems := [], components := [], entities := [], cameras := [],
    entitiesComponents := [], nextEntityId := 0, root := none }

/-- The whole mutable state the registry operations act on: the Entity
heap, the Component heap, and the manager's own fields.  `bound` records
an upper bound on the number of allocated entities; it is used only as
recursion fuel by the spec-modelled descendant check. -/
structure SG where
  ents : EntityId → EntityData
  comps : CompId → CompData
  mgr : Manager
  bound : Nat

/-- Python dict lookup `d[k]` (as an option) on the association-list
embedding of `_entities_components`. -/
def dictGet {β : Type} : List (EntityId × β) → EntityId → Option β
  | [], _ => none
  | (k, v) :: rest, e => if k = e then some v else dictGet rest e

/-- Python dict assignment `d[k] = v`: replaces the value of an existing
key in place (keys keep insertion order), otherwise appends the new key. -/
def dictSet {β : Type} : List (EntityId × β) → EntityId → β → List (EntityId × β)
  | [], e, v => [(e, v)]
  | (k, w) :: rest, e, v =>
    if k = e then (k, v) :: rest else (k, w) :: dictSet rest e v

/-- Fuel-bounded membership of `target` in the subtree rooted at `root`
(the root itself included), following the `children` lists.  With fuel at
least the tree depth this is exactly the descendant-or-self relation. -/
def subtreeMem (ents : EntityId → EntityData) : Nat → SNode → SNode → Bool
  | 0, r, t => decide (r = t)
  | f + 1, r, t =>
    decide (r = t) ||
      (match r with
       | SNode.comp _ => false
       | SNode.ent e => (ents e).children.any fun ch => subtreeMem ents f ch t)

/-- Modelled from the spec: the `Entity` class (module `Entity`) is not in
the excerpt.  Per the design document's composite contract, `add(child)`
attaches `child` to `self`'s ordered child list and sets
`child.parent := self`; per its hierarchy invariant, attempting to add an
Entity as its own descendant (that is, when `self` already lies in
`child`'s subtree, `self = child` included) fails with
`InvalidHierarchy` and changes nothing. -/
def entityAdd (S : SG) (selfE : EntityId) (child : SNode) : Except ECSError SG :=
  if subtreeMem S.ents S.bound child (SNode.ent selfE) then
    Except.error ECSError.invalidHierarchy
  else
    let ents1 : EntityId → EntityData := fun e =>
      if e = selfE then
        { S.ents e with children := (S.ents e).children ++ [child] }
      else S.ents e
    match child with
    | SNode.ent c =>
      Except.ok { S with ents := fun e =>
        if e = c then { ents1 e with parent := SNode.ent selfE } else ents1 e }
    | SNode.comp c =>
      Except.ok { S with
        ents := ents1,
        comps := fun c2 =>
          if c2 = c then { S.comps c2 with parent := SNode.ent selfE } else S.comps c2 }

/-- Modelled from the spec: `Entity.getParent` returns the parent
back-reference (the self sentinel when the entity is unattached). -/
def entityGetParent (S : SG) (e : EntityId) : SNode :=
  (S.ents e).parent

/-- Python's `str.lower()`, embedded character-wise. -/
def strLower (s : String) : String :=
  ⟨s.data.map Char.toLower⟩

/-- Embeds `ECSSManager.createEntity` (lines 56-73).  The `isinstance`
guard holds by typing.  The entity is appended to `_entities`, its
`_entities_components` entry is set to the placeholder `[None]`, and if
its name lower-cases to `"root"` it becomes `_root`.  There is no
duplicate check in the source; the method cannot fail. -/
def createEntity (S : SG) (e : EntityId) : Except ECSError (SG × EntityId) :=
  let m1 : Manager :=
    { S.mgr with
      entities := S.mgr.entities ++ [e],
      entitiesComponents := dictSet S.mgr.entitiesComponents e [none] }
  let m2 : Manager :=
    if strLower (S.ents e).name = "root" then { m1 with root := some e } else m1
  Except.ok ({ S with mgr := m2 }, e)

/-- `isinstance(el, type(component))` on an element of an
`_entities_components` value list: `None` is an instance of no Component
class, and the three concrete Component classes are unrelated, so the
check is kind equality. -/
def matchesKind (comps : CompId → CompData) (c : CompId) : Option CompId → Bool
  | none => false
  | some c2 => decide ((comps c2).kind = (comps c).kind)

/-- The value-list mutation of `addComponent`'s early-return branch:
`if value[0] == None: value[0] = component else: value.append(component)`
(component equality defaults to identity, so `== None` is only true of
`None` itself).  The branch is only reached with a non-empty list. -/
def updValue (v : List (Option CompId)) (c : CompId) : List (Option CompId) :=
  match v with
  | none :: rest => some c :: rest
  | _ => v ++ [some c]

/-- The dict loop of `ECSSManager.addComponent` (lines 124-144).  Scans
`_entities_components` in insertion order; at the entry whose key `is`
the entity, it scans the value list: an element of the same concrete
kind only rebinds the loop variable (`el = component`, a no-op), and the
first element that is not of the same kind triggers the early-return
branch (`key.add(component)`, the value-list mutation, `return
component`).  Result: `some` of the updated dict when the early return
fires, `none` when the loop falls through. -/
def addCompLoop (comps : CompId → CompData) (e : EntityId) (c : CompId) :
    List (EntityId × List (Option CompId)) → Option (List (EntityId × List (Option CompId)))
  | [] => none
  | (k, v) :: rest =>
    if k = e ∧ (v.any fun el => !(matchesKind comps c el)) then
      some ((k, updValue v c) :: rest)
    else
      match addCompLoop comps e c rest with
      | some rest2 => some ((k, v) :: rest2)
      | none => none

/-- Embeds `ECSSManager.addComponent` (lines 100-146).  The two
`isinstance` guards hold by typing.  A `Camera` component is appended to
`_cameras`, any other to `_components` — before any registration check.
Then the dict loop runs; on its early return the entity's `add` is
invoked (spec-modelled `entityAdd`) and the component is returned; if the
loop falls through (the entity is not a key, or every element of its
value list already has the component's kind) the method implicitly
returns `None`, keeping the global append. -/
def addComponent (S : SG) (e : EntityId) (c : CompId) :
    Except ECSError (SG × Option CompId) :=
  let m : Manager :=
    if (S.comps c).kind = CKind.camera then
      { S.mgr with cameras := S.mgr.cameras ++ [c] }
    else
      { S.mgr with components := S.mgr.components ++ [c] }
  match addCompLoop S.comps e c m.entitiesComponents with
  | some dict2 =>
    match entityAdd { S with mgr := m } e (SNode.comp c) with
    | Except.ok S2 =>
      Except.ok ({ S2 with mgr := { S2.mgr with entitiesComponents := dict2 } }, some c)
    | Except.error err => Except.error err
  | none => Except.ok ({ S with mgr := m }, none)

/-- Embeds `ECSSManager.addEntityChild` (lines 150-169).  The
`isinstance` guards hold by typing.  If the child's parent `is not` the
given parent, the composite `add` is invoked (spec-modelled `entityAdd`);
otherwise nothing happens.  The promised dict bookkeeping is an
unimplemented `GPTODO` in the source. -/
def addEntityChild (S : SG) (parentE childE : EntityId) : Except ECSError (SG × Unit) :=
  if entityGetParent S childE ≠ SNode.ent parentE then
    match entityAdd S parentE (SNode.ent childE) with
    | Except.ok S2 => Except.ok (S2, ())
    | Except.error err => Except.error err
  else
    Except.ok (S, ())

/-- The process state the singleton machinery acts on: the class
attribute `ECSSManager._instance` (an object reference or `None`), a
heap of constructed manager objects, and a fresh-reference counter. -/
structure World where
  inst : Option Nat
  heap : Nat → Manager
  nextRef : Nat

/-- Embeds `ECSSManager.__new__` (lines 29-40): if `_instance` is `None`
a fresh object is allocated and stored in `_instance`; otherwise the
stored instance is returned. -/
def ECSSManager_new (w : World) : Nat × World :=
  match w.inst with
  | some r => (r, w)
  | none =>
    (w.nextRef, { w with inst := some w.nextRef, nextRef := w.nextRef + 1 })

/-- Embeds a full constructor call `ECSSManager()`: Python runs
`__new__` and then always runs `__init__` (lines 42-52) on the returned
instance, resetting every collection to its empty initial state. -/
def ECSSManager_call (w : World) : Nat × World :=
  let rw := ECSSManager_new w
  (rw.1, { rw.2 with heap := fun r => if r = rw.1 then initManager else rw.2.heap r })

/-- The second argument of `ECSSManager.traverse_visit`: in Python it is
either an iterator object (what `createIterator` returns) or a class
object.  The distinction matters because the source applies the builtin
`issubclass` to it, and `issubclass` requires a class. -/
inductive IterArg
  | instanceOf (root : EntityId)
  | classArg
deriving DecidableEq, Repr

/-- Python's `issubclass(iterator, Iterator)`: raises `TypeError` when
its first argument is not a class; on a class argument that subclasses
`Iterator` it returns `True`. -/
def issubclassIterator : IterArg → Except ECSError Bool
  | IterArg.instanceOf _ => Except.error ECSError.typeError
  | IterArg.classArg => Except.ok true

/-- A record of one `accept` invocation (which component the system was
asked to visit), the trace a traversal would produce. -/
abbrev Visit := CompId

/-- Embeds `ECSSManager.traverse_visit` (lines 173-184).  The guard is
`isinstance(system, System.System) and issubclass(iterator, Iterator)`;
the first conjunct holds by typing, and evaluating the second raises
`TypeError` whenever the argument is an iterator instance.  The body
under the guard is `pass`, so no iteration happens and no `accept` is
ever invoked; the returned trace of visits is empty on every
non-raising path. -/
def traverse_visit (system : Nat) (iterator : IterArg) :
    Except ECSError (List Visit) :=
  match issubclassIterator iterator with
  | Except.error err => Except.error err
  | Except.ok true => Except.ok []
  | Except.ok false => Except.ok []

/-- The instance fields of `BasicTransform` (Component.py lines 169-177)
that its `update` method may touch, over an opaque matrix type `M`
(matrices are produced by the external `utilities` module and exchanged
by value). -/
structure BasicTransformData (M : Type) where
  name : Option String
  type : Option String
  id : Option Nat
  trs : M
  l2world : M
  l2cam : M

/-- Embeds `BasicTransform.update` (Component.py lines 203-221).  The
keyword-argument dict is embedded as a partial map from names to matrix
values.  In source order: if `"l2world"` is present it overwrites
`_l2world`, if `"trs"` is present it overwrites `_trs`, if `"l2cam"` is
present it overwrites `_l2cam`; every other key is never consulted. -/
def BasicTransformData.update {M : Type} (t : BasicTransformData M)
    (kwargs : String → Option M) : BasicTransformData M :=
  let t1 := match kwargs "l2world" with
    | some v => { t with l2world := v }
    | none => t
  let t2 := match kwargs "trs" with
    | some v => { t1 with trs := v }
    | none => t1
  match kwargs "l2cam" with
  | some v => { t2 with l2cam := v }
  | none => t2

/-- The concrete System classes named by the design document:
`TransformSystem`, `CameraSystem`, `RenderSystem`. -/
inductive SystemKind
  | transformSystem
  | cameraSystem
  | renderSystem
deriving DecidableEq, Repr

/-- One visitor operation actually performed on a visited component. -/
inductive SysOp
  | transformApply
  | cameraApplyCamera
  | renderApply
deriving DecidableEq, Repr

/-- Modelled from the spec: the `System` module is not in the excerpt.
Every System object responds to the generic visit method `apply`; a
System receiving a Component kind it does not support performs nothing
(the design document's "must be a no-op, not a failure").  The result is
the list of operations performed. -/
def systemApply : SystemKind → CKind → List SysOp
  | SystemKind.transformSystem, CKind.basicTransform => [SysOp.transformApply]
  | SystemKind.renderSystem, CKind.renderMesh => [SysOp.renderApply]
  | _, _ => []

/-- Modelled from the spec: the visit method `applyCamera`, to which
every System object likewise responds; only `CameraSystem` acts on it
(on a Transform or a Camera), every other combination is a silent
no-op. -/
def systemApplyCamera : SystemKind → CKind → List SysOp
  | SystemKind.cameraSystem, CKind.basicTransform => [SysOp.cameraApplyCamera]
  | SystemKind.cameraSystem, CKind.camera => [SysOp.cameraApplyCamera]
  | _, _ => []

/-- Embeds the `accept` methods of Component.py by concrete kind:
`BasicTransform.accept` (lines 224-240) calls `system.apply(self)` then
`system.applyCamera(self)` unconditionally; `Camera.accept`
(lines 300-312) and `RenderMesh.accept` (lines 348-355) call
`system.apply(self)`.  The `Except` channel carries the failure a
missing method would be; under the spec-modelled System every method
lookup succeeds. -/
def componentAccept (c : CKind) (s : SystemKind) : Except ECSError (List SysOp) :=
  match c with
  | CKind.basicTransform =>
    Except.ok (systemApply s CKind.basicTransform ++ systemApplyCamera s CKind.basicTransform)
  | CKind.camera => Except.ok (systemApply s CKind.camera)
  | CKind.renderMesh => Except.ok (systemApply s CKind.renderMesh)

/-- A plain scene state: every entity unattached (self-sentinel parent,
no children, name `"a"`), every component a `BasicTransform`, the manager
freshly initialised.  Entity `0` is allocated on the heap but never
registered with `createEntity`. -/
def plainSG : SG :=
  { ents := fun e => { name := "a", parent := SNode.ent e, children := [] },
    comps := fun c => { kind := CKind.basicTransform, parent := SNode.comp c },
    mgr := initManager, bound := 4 }

/-- Like `plainSG` but every component is a `Camera`. -/
def camSG : SG :=
  { ents := fun e => { name := "a", parent := SNode.ent e, children := [] },
    comps := fun c => { kind := CKind.camera, parent := SNode.comp c },
    mgr := initManager, bound := 4 }

/-- C1 scenario, step 1: register entity `0`. -/
def c1S1 : SG :=
  match createEntity plainSG 0 with
  | Except.ok p => p.1
  | Except.error _ => plainSG

/-- C1 scenario, step 2: attach `BasicTransform` component `1` to
entity `0`. -/
def c1S2 : SG :=
  match addComponent c1S1 0 1 with
  | Except.ok p => p.1
  | Except.error _ => c1S1

/-- C1 scenario, step 3: attach a second `BasicTransform`, component `2`,
to the same entity. -/
def c1Res : Except ECSError (SG × Option CompId) := addComponent c1S2 0 2

/-- C3 scenario: entity `0` registered once (same shape as `c1S1`, kept
separate so the two claims stand on their own scenarios). -/
def c3S1 : SG :=
  match createEntity plainSG 0 with
  | Except.ok p => p.1
  | Except.error _ => plainSG

/-- A three-level chain for the hierarchy claims: entity `0` (the root)
has child `1`, entity `1` has child `2`, entity `3` is unattached. -/
def c6ChainSG : SG :=
  { ents := fun e =>
      if e = 0 then { name := "root", parent := SNode.ent 0, children := [SNode.ent 1] }
      else if e = 1 then { name := "a", parent := SNode.ent 0, children := [SNode.ent 2] }
      else if e = 2 then { name := "b", parent := SNode.ent 1, children := [] }
      else { name := "c", parent := SNode.ent e, children := [] },
    comps := fun c => { kind := CKind.basicTransform, parent := SNode.comp c },
    mgr := initManager, bound := 4 }

theorem dictGet_dictSet_self {β : Type} (d : List (EntityId × β)) (e : EntityId) (v : β) :
    dictGet (dictSet d e v) e = some v := by
  induction d with
  | nil => simp [dictGet, dictSet]
  | cons kv rest ih =>
    obtain ⟨k, w⟩ := kv
    by_cases h : k = e
    · simp [dictGet, dictSet, h]
    · simp [dictGet, dictSet, h, ih]

theorem addCompLoop_of_unregistered (comps : CompId → CompData) (e : EntityId) (c : CompId) :
    ∀ d : List (EntityId × List (Option CompId)), dictGet d e = none →
      addCompLoop comps e c d = none := by
  intro d
  induction d with
  | nil => intro _; rfl
  | cons kv rest ih =>
    obtain ⟨k, v⟩ := kv
    intro h
    by_cases hk : k = e
    · simp [dictGet, hk] at h
    · have hrest : dictGet rest e = none := by simpa [dictGet, hk] using h
      simp [addCompLoop, hk, ih hrest]

theorem subtreeMem_self (ents : EntityId → EntityData) (f : Nat) (r : SNode) :
    subtreeMem ents f r r = true := by
  cases f <;> simp [subtreeMem]

/-- C1: the claim says a second component of the same concrete kind
replaces the old one and the old instance leaves the global collection.
Evaluating the embedded `addComponent` on a registered entity `0` that
already owns `BasicTransform` `1` and receives `BasicTransform` `2`
shows the code does neither: the entity's mapping entry still holds the
old component `1`, the entity's own child list still holds only `1`, the
global `_components` list holds both `1` and `2`, and the call returns
`None` instead of the new component — the assignment `el = component`
in the source only rebinds the loop variable. -/
theorem c1_no_replacement :
    (c1Res.toOption.map fun r =>
      (dictGet r.1.mgr.entitiesComponents 0, r.1.mgr.components,
        (r.1.ents 0).children, r.2))
      = some (some [some 1], [1, 2], [SNode.comp 1], none) := by
  decide

/-- C2: the claim says `traverse_visit` walks the subtree and invokes
`accept` on every attached component.  The embedded code never produces
a single visit: with an iterator instance (the only thing
`createIterator` returns) the guard's `issubclass` raises `TypeError`,
and on any non-raising path the body — `pass` — yields the empty visit
trace. -/
theorem c2_traverse_visit_no_visits :
    (traverse_visit 0 (IterArg.instanceOf 0) = Except.error ECSError.typeError) ∧
    ∀ (s : Nat) (it : IterArg),
      traverse_visit s it = Except.error ECSError.typeError ∨
      traverse_visit s it = Except.ok [] := by
  refine ⟨rfl, ?_⟩
  intro s it
  cases it
  · exact Or.inl rfl
  · exact Or.inr rfl

/-- C3 counterexample: registering the same entity instance twice does
not fail with `DuplicateRegistration`; the second call succeeds, leaving
entity `0` twice in `_entities` and its mapping entry reset to `[None]`. -/
theorem c3_second_registration_ok :
    ((createEntity c3S1 0).toOption.map fun p =>
      (p.1.mgr.entities, dictGet p.1.mgr.entitiesComponents 0))
      = some ([0, 0], some [none]) := by
  decide

/-- C3 (amended): a second `createEntity(e)` on the same registry does
not fail — the source has no duplicate check.  It appends `e` a second
time to `_entities` and resets `e`'s `_entities_components` entry to the
initial `[None]` placeholder. -/
theorem c3_reregistration_behavior (S : SG) (e : EntityId)
    (h : e ∈ S.mgr.entities) :
    ∃ S2 : SG, createEntity S e = Except.ok (S2, e) ∧
      S2.mgr.entities = S.mgr.entities ++ [e] ∧
      dictGet S2.mgr.entitiesComponents e = some [none] := by
  by_cases hn : strLower (S.ents e).name = "root"
  · refine ⟨{ S with mgr := { S.mgr with
        entities := S.mgr.entities ++ [e],
        entitiesComponents := dictSet S.mgr.entitiesComponents e [none],
        root := some e } }, ?_, rfl, dictGet_dictSet_self _ _ _⟩
    simp [createEntity, hn]
  · refine ⟨{ S with mgr := { S.mgr with
        entities := S.mgr.entities ++ [e],
        entitiesComponents := dictSet S.mgr.entitiesComponents e [none] } },
      ?_, rfl, dictGet_dictSet_self _ _ _⟩
    simp [createEntity, hn]

/-- C3 witness: the amended behavior at the concrete re-registration of
entity `0` in the `c3S1` state. -/
theorem c3_reregistration_witness :
    0 ∈ c3S1.mgr.entities ∧
    ∃ S2 : SG, createEntity c3S1 0 = Except.ok (S2, 0) ∧
      S2.mgr.entities = c3S1.mgr.entities ++ [0] ∧
      dictGet S2.mgr.entitiesComponents 0 = some [none] :=
  ⟨by decide, c3_reregistration_behavior c3S1 0 (by decide)⟩

/-- C4 counterexample: `addComponent` on heap-allocated but never
registered entity `0` does not fail with `UnknownEntity`; it succeeds,
appends the component to the global `_components` list, leaves the
entity mapping untouched and returns `None`. -/
theorem c4_unregistered_ok :
    ((addComponent plainSG 0 1).toOption.map fun r =>
      (r.1.mgr.components, r.1.mgr.entitiesComponents, r.2))
      = some ([1], [], none) := by
  decide

/-- C4 (amended): `addComponent(e, c)` with an unregistered `e` does not
fail — the source has no registration check.  It appends `c` to the
global camera collection when `c` is a `Camera` and to the global
component collection otherwise, attaches nothing (the mapping and the
entity heap are unchanged), and returns `None`. -/
theorem c4_unregistered_behavior (S : SG) (e : EntityId) (c : CompId)
    (h : dictGet S.mgr.entitiesComponents e = none) :
    ∃ S2 : SG, addComponent S e c = Except.ok (S2, none) ∧
      S2.mgr.entitiesComponents = S.mgr.entitiesComponents ∧
      S2.ents = S.ents ∧
      ((S.comps c).kind = CKind.camera →
        S2.mgr.cameras = S.mgr.cameras ++ [c] ∧
        S2.mgr.components = S.mgr.components) ∧
      ((S.comps c).kind ≠ CKind.camera →
        S2.mgr.components = S.mgr.components ++ [c] ∧
        S2.mgr.cameras = S.mgr.cameras) := by
  have hl := addCompLoop_of_unregistered S.comps e c S.mgr.entitiesComponents h
  by_cases hk : (S.comps c).kind = CKind.camera
  · refine ⟨{ S with mgr := { S.mgr with cameras := S.mgr.cameras ++ [c] } },
      ?_, rfl, rfl, fun _ => ⟨rfl, rfl⟩, fun hn => absurd hk hn⟩
    simp [addComponent, hk, hl]
  · refine ⟨{ S with mgr := { S.mgr with components := S.mgr.components ++ [c] } },
      ?_, rfl, rfl, fun hc => absurd hc hk, fun _ => ⟨rfl, rfl⟩⟩
    simp [addComponent, hk, hl]

/-- C4 witness: the amended behavior at the concrete unregistered
entity `0` and `BasicTransform` component `1` of `plainSG`. -/
theorem c4_unregistered_witness :
    dictGet plainSG.mgr.entitiesComponents 0 = none ∧
    ∃ S2 : SG, addComponent plainSG 0 1 = Except.ok (S2, none) ∧
      S2.mgr.entitiesComponents = plainSG.mgr.entitiesComponents ∧
      S2.ents = plainSG.ents ∧
      ((plainSG.comps 1).kind = CKind.camera →
        S2.mgr.cameras = plainSG.mgr.cameras ++ [1] ∧
        S2.mgr.components = plainSG.mgr.components) ∧
      ((plainSG.comps 1).kind ≠ CKind.camera →
        S2.mgr.components = plainSG.mgr.components ++ [1] ∧
        S2.mgr.cameras = plainSG.mgr.cameras) :=
  ⟨by decide, c4_unregistered_behavior plainSG 0 1 (by decide)⟩

/-- C5 counterexample: the unregistered-entity path of `addComponent` is
observed half-applied — with `Camera` component `1` and unregistered
entity `0`, the global camera collection goes from empty to `[1]` even
though nothing was attached and `None` is returned. -/
theorem c5_collections_mutated :
    camSG.mgr.cameras = [] ∧
    ((addComponent camSG 0 1).toOption.map fun r =>
      (r.1.mgr.cameras, r.1.mgr.entitiesComponents, r.2))
      = some ([1], [], none) := by
  constructor
  · rfl
  · decide

/-- C5 (amended): `addComponent` is not atomic on its failing
(unregistered-entity) path: the call attaches nothing and returns
`None`, yet the global component collection has already been mutated —
the new component is appended there, so the registry is observed
half-applied.  (Stated for non-camera components; the camera collection
behaves symmetrically, see the C4 theorem.) -/
theorem c5_half_applied (S : SG) (e : EntityId) (c : CompId)
    (h : dictGet S.mgr.entitiesComponents e = none)
    (hk : (S.comps c).kind ≠ CKind.camera) :
    ∃ S2 : SG, addComponent S e c = Except.ok (S2, none) ∧
      S2.mgr.entitiesComponents = S.mgr.entitiesComponents ∧
      S2.ents = S.ents ∧
      S2.mgr.components = S.mgr.components ++ [c] ∧
      S2.mgr.components ≠ S.mgr.components := by
  have hl := addCompLoop_of_unregistered S.comps e c S.mgr.entitiesComponents h
  refine ⟨{ S with mgr := { S.mgr with components := S.mgr.components ++ [c] } },
    ?_, rfl, rfl, rfl, ?_⟩
  · simp [addComponent, hk, hl]
  · intro hEq
    have hlen := congrArg List.length hEq
    simp at hlen

/-- C5 witness: the amended non-atomicity at the concrete unregistered
entity `0` and `BasicTransform` component `1` of `plainSG`. -/
theorem c5_half_applied_witness :
    dictGet plainSG.mgr.entitiesComponents 0 = none ∧
    (plainSG.comps 1).kind ≠ CKind.camera ∧
    ∃ S2 : SG, addComponent plainSG 0 1 = Except.ok (S2, none) ∧
      S2.mgr.entitiesComponents = plainSG.mgr.entitiesComponents ∧
      S2.ents = plainSG.ents ∧
      S2.mgr.components = plainSG.mgr.components ++ [1] ∧
      S2.mgr.components ≠ plainSG.mgr.components :=
  ⟨by decide, by decide, c5_half_applied plainSG 0 1 (by decide) (by decide)⟩

/-- C6 counterexample: for the unattached entity `0` of `plainSG`
(parent = self sentinel), `addEntityChild(0, 0)` does not fail with
`InvalidHierarchy` — the source's `getParent() is not parent` guard sees
the self sentinel and skips the `add` entirely, returning silently with
the state unchanged. -/
theorem c6_self_child_silent :
    addEntityChild plainSG 0 0 = Except.ok (plainSG, ()) := by
  rfl

/-- C6 (amended): `addEntityChild(x, x)` is a silent no-op, not an
`InvalidHierarchy` failure, whenever `x` carries the self-sentinel
parent (the unattached/root state); only when `x` already has a distinct
parent does the call reach the spec-modelled `Entity.add` and fail with
`InvalidHierarchy`.  Adding an entity `c` under its own (proper)
descendant `p` — when `c`'s parent is not already `p` — likewise fails
with `InvalidHierarchy` in `Entity.add`.  In the no-op and failing cases
the tree is unchanged. -/
theorem c6_hierarchy_behavior :
    (∀ (S : SG) (x : EntityId), (S.ents x).parent = SNode.ent x →
      addEntityChild S x x = Except.ok (S, ())) ∧
    (∀ (S : SG) (x : EntityId), (S.ents x).parent ≠ SNode.ent x →
      addEntityChild S x x = Except.error ECSError.invalidHierarchy) ∧
    (∀ (S : SG) (p c : EntityId),
      subtreeMem S.ents S.bound (SNode.ent c) (SNode.ent p) = true →
      (S.ents c).parent ≠ SNode.ent p →
      addEntityChild S p c = Except.error ECSError.invalidHierarchy) := by
  refine ⟨?_, ?_, ?_⟩
  · intro S x h
    simp [addEntityChild, entityGetParent, h]
  · intro S x h
    have hs := subtreeMem_self S.ents S.bound (SNode.ent x)
    simp [addEntityChild, entityGetParent, h, entityAdd, hs]
  · intro S p c h1 h2
    simp [addEntityChild, entityGetParent, h2, entityAdd, h1]

/-- C6 witness: the amended behavior on the concrete chain
`0 → 1 → 2` of `c6ChainSG`: self-add of the unattached `3` is a silent
no-op, self-add of the attached `1` fails, and adding ancestor `0` under
its descendant `2` fails. -/
theorem c6_hierarchy_witness :
    addEntityChild c6ChainSG 3 3 = Except.ok (c6ChainSG, ()) ∧
    addEntityChild c6ChainSG 1 1 = Except.error ECSError.invalidHierarchy ∧
    addEntityChild c6ChainSG 2 0 = Except.error ECSError.invalidHierarchy :=
  ⟨c6_hierarchy_behavior.1 c6ChainSG 3 (by decide),
   c6_hierarchy_behavior.2.1 c6ChainSG 1 (by decide),
   c6_hierarchy_behavior.2.2 c6ChainSG 2 0 (by decide) (by decide)⟩

/-- C7: every `accept` call completes without failure, for every
component kind and every system kind — `BasicTransform.accept` invokes
`apply` and then `applyCamera`, `Camera.accept` and `RenderMesh.accept`
invoke `apply`, and under the spec-modelled System (every system
responds to both visit methods and silently performs nothing on a kind
it does not support) each of these calls succeeds. -/
theorem c7_accept_never_fails :
    ∀ (c : CKind) (s : SystemKind),
      ∃ ops : List SysOp, componentAccept c s = Except.ok ops := by
  intro c s
  cases c <;> exact ⟨_, rfl⟩

/-- C8: `BasicTransform.update` overwrites exactly the fields whose
keyword is present — `l2world` (local-to-world), `trs` (local
transform), `l2cam` (local-to-camera) — leaves every other field
unchanged, and the result depends only on those three keys, so every
unrecognized option is ignored without error. -/
theorem c8_transform_update {M : Type} (t : BasicTransformData M)
    (kw : String → Option M) :
    (t.update kw).l2world = (kw "l2world").getD t.l2world ∧
    (t.update kw).trs = (kw "trs").getD t.trs ∧
    (t.update kw).l2cam = (kw "l2cam").getD t.l2cam ∧
    (t.update kw).name = t.name ∧
    (t.update kw).type = t.type ∧
    (t.update kw).id = t.id ∧
    (∀ kw2 : String → Option M,
      kw "l2world" = kw2 "l2world" → kw "trs" = kw2 "trs" →
      kw "l2cam" = kw2 "l2cam" → t.update kw = t.update kw2) := by
  have hdep : ∀ kw2 : String → Option M,
      kw "l2world" = kw2 "l2world" → kw "trs" = kw2 "trs" →
      kw "l2cam" = kw2 "l2cam" → t.update kw = t.update kw2 := by
    intro kw2 h1 h2 h3
    simp only [BasicTransformData.update, h1, h2, h3]
  refine ⟨?_, ?_, ?_, ?_, ?_, ?_, hdep⟩
  all_goals
    rcases e1 : kw "l2world" with _ | v1 <;>
      rcases e2 : kw "trs" with _ | v2 <;>
        rcases e3 : kw "l2cam" with _ | v3 <;>
          simp [BasicTransformData.update, e1, e2, e3]

/-- Concrete transform record for the C8 witness. -/
def c8T0 : BasicTransformData Nat :=
  { name := some "n", type := none, id := some 7, trs := 1, l2world := 2, l2cam := 3 }

/-- Keyword arguments `trs=5, foo=9`: one recognized, one unrecognized. -/
def c8kwA : String → Option Nat := fun k =>
  if k = "trs" then some 5 else if k = "foo" then some 9 else none

/-- Keyword arguments `trs=5` only. -/
def c8kwB : String → Option Nat := fun k =>
  if k = "trs" then some 5 else none

/-- C8 witness: at the concrete record and keyword dicts, `trs` is
overwritten, `l2world` is untouched, and the unrecognized `foo=9` makes
no difference to the result. -/
theorem c8_transform_update_witness :
    (c8T0.update c8kwA).trs = 5 ∧
    (c8T0.update c8kwA).l2world = 2 ∧
    c8T0.update c8kwA = c8T0.update c8kwB := by
  refine ⟨?_, ?_, ?_⟩
  · rw [(c8_transform_update c8T0 c8kwA).2.1]; decide
  · rw [(c8_transform_update c8T0 c8kwA).1]; decide
  · exact (c8_transform_update c8T0 c8kwA).2.2.2.2.2.2 c8kwB
      (by decide) (by decide) (by decide)

/-- C9: the registry is a process-wide singleton — every constructor
call `ECSSManager()` stores its result in the `_instance` class
attribute, and a further constructor call returns that very same
instance, so any two constructions yield the identical object. -/
theorem c9_singleton_identity :
    ∀ w : World,
      (ECSSManager_call w).2.inst = some (ECSSManager_call w).1 ∧
      (ECSSManager_call (ECSSManager_call w).2).1 = (ECSSManager_call w).1 := by
  intro w
  cases h : w.inst with
  | some r => exact ⟨by simp [ECSSManager_call, ECSSManager_new, h],
      by simp [ECSSManager_call, ECSSManager_new, h]⟩
  | none => exact ⟨by simp [ECSSManager_call, ECSSManager_new, h],
      by simp [ECSSManager_call, ECSSManager_new, h]⟩

/-- C10: every constructor call `ECSSManager()` — the later ones that
return the existing singleton included — re-runs `__init__` on the
returned instance, resetting all registry collections (`_systems`,
`_components`, `_entities`, `_cameras`, `_entities_components`,
`_next_entity_id`, `_root`) to their empty initial state and thereby
discarding all previously registered state. -/
theorem c10_reinit_on_construction :
    ∀ w : World, (ECSSManager_call w).2.heap (ECSSManager_call w).1 = initManager := by
  intro w
  cases h : w.inst <;> simp [ECSSManager_call, ECSSManager_new, h]
